import Mathlib

/-!
Shallow embedding of `src/weatherMain.ino` (Arduino weather logger).

Modelling conventions:
* `float` values are modelled as rationals (`ℚ`); a reading that may be NaN
  (the DHT driver returns `float|NaN`) is modelled as `Option ℚ`, where
  `none` stands for NaN.
* `uint32_t` clock values are naturals reduced modulo `2^32`; the C
  subtraction `millis() - lastLogTime` is `sub32`.
* The C globals (sensor caches, averaging accumulator, the two static
  timers of `loop`, the static `displayMode` of `toggleDisplayMode`) are
  gathered in one state record `ProgState`.
* Output is modelled as traces: `logfile` is the list of chunks passed to
  `logfile.print`, in order; `lcdOut` collects LCD writes; `flushes`
  records every call to `logfile.flush()` together with the clock value at
  that moment; `avgEvents` records every invocation of `displayAverages`
  together with the divisor (`readingsCount`) and the three quotients it
  computes.
* `error(msg)` prints to the LCD and then spins forever; it is modelled by
  `errorHalt`, which sets the `halted` flag.  Once `halted`, a loop
  iteration does nothing (the real program never leaves `error`).
* The text rendering of floats (Arduino `Print::print(float)` and the
  LCD's one-decimal `printf`) is platform code outside this repository; it
  is abstracted as a pair of rendering functions `Renderers`.
* `millis()` is sampled several times during one loop iteration in the C
  code; an iteration is modelled at a single instant `now`, matching the
  spec's per-iteration clock.
-/

namespace WeatherData

/-- LOG_INTERVAL: milliseconds between data entries (source line 9). -/
def LOG_INTERVAL : ℕ := 2000

/-- SYNC_INTERVAL: milliseconds between file syncs (source line 10). -/
def SYNC_INTERVAL : ℕ := 20000

/-- Modulus of the 32-bit millisecond clock. -/
def U32MOD : ℕ := 2 ^ 32

/-- The C expression `a - b` at type `uint32_t`: subtraction modulo `2^32`. -/
def sub32 (a b : ℕ) : ℕ := (a % U32MOD + U32MOD - b % U32MOD) % U32MOD

/-- The value returned by `rtc.now()`: a calendar timestamp plus the unix
stamp and weekday that `DateTime` exposes. -/
structure DateTime where
  year : ℕ
  month : ℕ
  day : ℕ
  hour : ℕ
  minute : ℕ
  second : ℕ
  unixtime : ℕ
  dayOfTheWeek : ℕ
  deriving DecidableEq, Repr

/-- The program's mutable globals plus its observable output traces. -/
structure ProgState where
  humidity : ℚ
  temperatureF : ℚ
  pressureKPA : ℚ
  totalHumidity : ℚ
  totalTemperature : ℚ
  totalPressure : ℚ
  readingsCount : ℤ
  displayMode : ℤ
  lastLogTime : ℕ
  syncTime : ℕ
  logfile : List String
  lcdOut : List String
  flushes : List ℕ
  avgEvents : List (ℤ × ℚ × ℚ × ℚ)
  halted : Bool
  deriving DecidableEq, Repr

/-- State at entry to the first `loop` iteration: all globals zero, the
static timers zero, no output yet. -/
def initState : ProgState :=
  { humidity := 0, temperatureF := 0, pressureKPA := 0
    totalHumidity := 0, totalTemperature := 0, totalPressure := 0
    readingsCount := 0, displayMode := 0
    lastLogTime := 0, syncTime := 0
    logfile := [], lcdOut := [], flushes := [], avgEvents := []
    halted := false }

/-- Abstract text rendering of float values: `file` is the platform's
default `Print::print(float)` used for the log record, `lcd1` the
one-decimal `printf("%.1f")` rendering used on the display. -/
structure Renderers where
  file : ℚ → String
  lcd1 : ℚ → String

/-- The `error` function (source lines 45-53): print the message on the
LCD, then halt forever. -/
def error (msg : String) (s : ProgState) : ProgState :=
  { s with lcdOut := s.lcdOut ++ ["Error: ", msg], halted := true }

/-- The `%02d` rendering used by `updateLCD`. -/
def fmt02 (n : ℕ) : String := if n < 10 then "0" ++ toString n else toString n

/-- Day names (source line 30). -/
def daysOfTheWeek : List String := ["Sun", "Mon", "Tue", "Wed", "Thu", "Fri", "Sat"]

/-- Month names (source line 31). -/
def monthsOfTheYear : List String :=
  ["   ", "Jan", "Feb", "Mar", "Apr", "May", "Jun", "Jul", "Aug", "Sep", "Oct", "Nov", "Dec"]

/-- readSensors (source lines 192-203): store the DHT humidity and
temperature readings; if either is NaN, call `error` (which halts, so the
pressure read never happens).  On the NaN path the C code stores NaN in
the float globals before halting; the halted state's caches are
unobservable, so the model leaves them unchanged there. -/
def readSensors (dhtHumidity dhtTemperatureF : Option ℚ) (mplPressure : ℚ)
    (s : ProgState) : ProgState :=
  match dhtHumidity, dhtTemperatureF with
  | some h, some t =>
      { s with humidity := h, temperatureF := t, pressureKPA := mplPressure }
  | _, _ => error "Failed to read from DHT sensor" s

/-- The chunks `logData` prints before reading the sensors (source lines
143-158): millis, unix stamp, and the quoted datetime. -/
def timeChunks (m : ℕ) (dt : DateTime) : List String :=
  [toString m, ", ", toString dt.unixtime, ", \"",
   toString dt.year, "/", toString dt.month, "/", toString dt.day, " ",
   toString dt.hour, ":", toString dt.minute, ":", toString dt.second, "\", "]

/-- The chunks `logData` prints after reading the sensors (source lines
164-169): the three float fields and the line terminator. -/
def sensorChunks (R : Renderers) (h t p : ℚ) : List String :=
  [R.file h, ", ", R.file t, ", ", R.file p, "\n"]

/-- resetAverages (source lines 250-255). -/
def resetAverages (s : ProgState) : ProgState :=
  { s with totalHumidity := 0, totalTemperature := 0, totalPressure := 0,
           readingsCount := 0 }

/-- displayAverages (source lines 258-269): render the three quotients
`total / readingsCount` on the LCD; `avgEvents` additionally records the
invocation (divisor and quotients).  The blocking 2-second dwell has no
observable effect in this timing-as-input model. -/
def displayAverages (R : Renderers) (s : ProgState) : ProgState :=
  { s with
    lcdOut := s.lcdOut ++
      ["Avg Hum: ", R.lcd1 (s.totalHumidity / (s.readingsCount : ℚ)) ++ "%",
       "Avg Temp: ", R.lcd1 (s.totalTemperature / (s.readingsCount : ℚ)) ++ "F",
       "Avg Press: ", R.lcd1 (s.totalPressure / (s.readingsCount : ℚ)) ++ " kPa"],
    avgEvents := s.avgEvents ++
      [(s.readingsCount,
        s.totalHumidity / (s.readingsCount : ℚ),
        s.totalTemperature / (s.readingsCount : ℚ),
        s.totalPressure / (s.readingsCount : ℚ))] }

/-- updateLCD (source lines 272-287): the three refreshed display rows. -/
def updateLCD (R : Renderers) (dt : DateTime) (s : ProgState) : ProgState :=
  { s with lcdOut := s.lcdOut ++
      [daysOfTheWeek.getD dt.dayOfTheWeek "" ++ " " ++
         monthsOfTheYear.getD dt.month "" ++ " " ++ fmt02 dt.day ++ "  " ++
         fmt02 dt.hour ++ ":" ++ fmt02 dt.minute ++ ":" ++ fmt02 dt.second,
       "H: " ++ R.lcd1 s.humidity ++ "% Temp: " ++ R.lcd1 s.temperatureF ++ "F",
       "Press: " ++ R.lcd1 s.pressureKPA ++ " kPa"] }

/-- logData (source lines 138-189).  Print order is the source's: the time
chunks go to the file first, then the sensors are read (fatal halt on
NaN), then the sensor chunks, then the averaging update, the every-10
average display and reset, and the LCD refresh. -/
def logData (R : Renderers) (m : ℕ) (dt : DateTime)
    (dhtHumidity dhtTemperatureF : Option ℚ) (mplPressure : ℚ)
    (s : ProgState) : ProgState :=
  let s := { s with logfile := s.logfile ++ timeChunks m dt }
  let s := readSensors dhtHumidity dhtTemperatureF mplPressure s
  if s.halted then s
  else
    let s := { s with logfile := s.logfile ++
                 sensorChunks R s.humidity s.temperatureF s.pressureKPA }
    let s := { s with
      totalHumidity := s.totalHumidity + s.humidity,
      totalTemperature := s.totalTemperature + s.temperatureF,
      totalPressure := s.totalPressure + s.pressureKPA,
      readingsCount := s.readingsCount + 1 }
    let s := if s.readingsCount ≥ 10 then resetAverages (displayAverages R s) else s
    updateLCD R dt s

/-- toggleDisplayMode (source lines 232-247): advance the static mode with
the C `%` (truncated remainder) and render one metric from the cached
sensor values.  It takes no sensor inputs: the view is of the most recent
log cycle's values. -/
def toggleDisplayMode (R : Renderers) (s : ProgState) : ProgState :=
  let mode := (s.displayMode + 1).tmod 3
  let out : List String :=
    if mode = 0 then ["Humidity: ", R.lcd1 s.humidity ++ "%"]
    else if mode = 1 then ["Temp: ", R.lcd1 s.temperatureF ++ "F"]
    else if mode = 2 then ["Pressure: ", R.lcd1 s.pressureKPA ++ " kPa"]
    else []
  { s with displayMode := mode, lcdOut := s.lcdOut ++ out }

/-- The external inputs sampled during one `loop` iteration. -/
structure LoopInput where
  now : ℕ
  dt : DateTime
  dhtHumidity : Option ℚ
  dhtTemperatureF : Option ℚ
  mplPressure : ℚ
  buttonLow : Bool
  deriving DecidableEq, Repr

/-- One iteration of `loop` (source lines 114-135): the log check, the
sync-flush check, and the button check, in that order.  A halted state is
absorbing: `error` never returns, so once halted nothing further runs. -/
def loopIter (R : Renderers) (inp : LoopInput) (s : ProgState) : ProgState :=
  if s.halted then s
  else
    let s :=
      if sub32 inp.now s.lastLogTime ≥ LOG_INTERVAL then
        logData R inp.now inp.dt inp.dhtHumidity inp.dhtTemperatureF
          inp.mplPressure { s with lastLogTime := inp.now }
      else s
    if s.halted then s
    else
      let s :=
        if sub32 inp.now s.syncTime ≥ SYNC_INTERVAL then
          { s with syncTime := inp.now, flushes := s.flushes ++ [inp.now] }
        else s
      if inp.buttonLow then toggleDisplayMode R s else s

/-- A run of the `loop`, fed one `LoopInput` per iteration. -/
def runLoop (R : Renderers) (inps : List LoopInput) (s : ProgState) : ProgState :=
  inps.foldl (fun acc i => loopIter R i acc) s

/-- Iteration inputs for log cycles spaced `LOG_INTERVAL` (2000 ms) apart:
iteration `k` happens at clock `2000 * k`, with valid sensor readings and
the button up. -/
def spacedInputs (dt : DateTime) (h t p : ℚ) (n : ℕ) : List LoopInput :=
  (List.range n).map fun k =>
    { now := 2000 * k, dt := dt, dhtHumidity := some h,
      dhtTemperatureF := some t, mplPressure := p, buttonLow := false }

/-- The candidate file name for index `i` (source lines 102-104): the
template `LOGGER00.CSV` with the two digit characters overwritten by
ASCII `48 + i / 10` and `48 + i % 10`. -/
def candidateName (i : ℕ) : String :=
  "LOGGER" ++ String.singleton (Char.ofNat (48 + i / 10)) ++
    String.singleton (Char.ofNat (48 + i % 10)) ++ ".CSV"

/-- Result of `createLogFile`: either a file was created (recording the
name and whether `SD.open` returned a valid handle — the source never
checks the latter), or the fatal `error` path was taken. -/
inductive CreateResult where
  | created : String → Bool → CreateResult
  | fatal : String → CreateResult
  deriving DecidableEq, Repr

/-- The loop of `createLogFile` (source lines 102-109), with explicit
fuel: try index `i`, then `i+1`, ...  `fileExists` is `SD.exists`;
`openValid` tells whether the handle `SD.open` returns for a name is
valid. -/
def createLogFileGo (fileExists openValid : String → Bool) : ℕ → ℕ → CreateResult
  | 0, _ => .fatal "Could not create file"
  | fuel + 1, i =>
    if fileExists (candidateName i) then createLogFileGo fileExists openValid fuel (i + 1)
    else .created (candidateName i) (openValid (candidateName i))

/-- createLogFile (source lines 101-111): 100 candidate indices starting
at 0; past them, the fatal `error` call (message modelled without the
apostrophe of the source's text). -/
def createLogFile (fileExists openValid : String → Bool) : CreateResult :=
  createLogFileGo fileExists openValid 100 0

/-- A concrete renderer instance used to exercise the theorems: the file
renderer spells out the three sample values of the spec's scenario. -/
def renderProbe : Renderers :=
  { file := fun q =>
      if q = 45.2 then "45.2"
      else if q = 72.3 then "72.3"
      else if q = 101.3 then "101.3"
      else "0.0",
    lcd1 := fun _ => "0.0" }

/-- The datetime of the spec's logging scenario: 2023/11/14 10:00:00,
unix stamp 1700000000 (a Tuesday). -/
def dt0 : DateTime :=
  { year := 2023, month := 11, day := 14, hour := 10, minute := 0,
    second := 0, unixtime := 1700000000, dayOfTheWeek := 2 }

/-- One valid-sample log cycle out of a window of ten, with per-sample
clock `ms`, datetime `dts`, and readings `hs`, `ts`, `ps`. -/
def oneLogCycle (R : Renderers) (ms : Fin 10 → ℕ) (dts : Fin 10 → DateTime)
    (hs ts ps : Fin 10 → ℚ) (i : Fin 10) (s : ProgState) : ProgState :=
  logData R (ms i) (dts i) (some (hs i)) (some (ts i)) (ps i) s

/-- Ten consecutive valid-sample log cycles (samples 0 through 9 in
order), as the averaging window of the spec. -/
def tenLogCycles (R : Renderers) (ms : Fin 10 → ℕ) (dts : Fin 10 → DateTime)
    (hs ts ps : Fin 10 → ℚ) (s : ProgState) : ProgState :=
  oneLogCycle R ms dts hs ts ps 9 (oneLogCycle R ms dts hs ts ps 8
    (oneLogCycle R ms dts hs ts ps 7 (oneLogCycle R ms dts hs ts ps 6
      (oneLogCycle R ms dts hs ts ps 5 (oneLogCycle R ms dts hs ts ps 4
        (oneLogCycle R ms dts hs ts ps 3 (oneLogCycle R ms dts hs ts ps 2
          (oneLogCycle R ms dts hs ts ps 1
            (oneLogCycle R ms dts hs ts ps 0 s)))))))))

/-- The averaging-state invariant the loop maintains: between iterations
the count stays in [0, 9], and every recorded average emission used the
divisor 10. -/
def AccInv (s : ProgState) : Prop :=
  0 ≤ s.readingsCount ∧ s.readingsCount ≤ 9 ∧ ∀ e ∈ s.avgEvents, e.1 = 10

/-- The five files LOGGER00.CSV through LOGGER04.CSV existing (the spec's
file-naming example). -/
def existsFirstFive : String → Bool := fun nm =>
  ["LOGGER00.CSV", "LOGGER01.CSV", "LOGGER02.CSV", "LOGGER03.CSV",
   "LOGGER04.CSV"].contains nm

/-- Ten loop iterations spaced 2000 ms apart starting at clock 2000, with
valid constant readings; each one fires a log cycle. -/
def tenFiringInputs : List LoopInput :=
  [⟨2000, dt0, some 1, some 2, 3, false⟩, ⟨4000, dt0, some 1, some 2, 3, false⟩,
   ⟨6000, dt0, some 1, some 2, 3, false⟩, ⟨8000, dt0, some 1, some 2, 3, false⟩,
   ⟨10000, dt0, some 1, some 2, 3, false⟩, ⟨12000, dt0, some 1, some 2, 3, false⟩,
   ⟨14000, dt0, some 1, some 2, 3, false⟩, ⟨16000, dt0, some 1, some 2, 3, false⟩,
   ⟨18000, dt0, some 1, some 2, 3, false⟩, ⟨20000, dt0, some 1, some 2, 3, false⟩]

section FrameLemmas

variable (R : Renderers) (m : ℕ) (dt : DateTime) (dh dtF : Option ℚ) (p : ℚ)
variable (s : ProgState)

/-- logData never touches the log timer. -/
@[simp] lemma logData_lastLogTime :
    (logData R m dt dh dtF p s).lastLogTime = s.lastLogTime := by
  cases dh <;> cases dtF <;>
    simp only [logData, readSensors, error] <;>
    split <;>
    simp [displayAverages, resetAverages, updateLCD] <;>
    split <;> rfl

/-- logData never touches the sync timer. -/
@[simp] lemma logData_syncTime :
    (logData R m dt dh dtF p s).syncTime = s.syncTime := by
  cases dh <;> cases dtF <;>
    simp only [logData, readSensors, error] <;>
    split <;>
    simp [displayAverages, resetAverages, updateLCD] <;>
    split <;> rfl

/-- logData never calls flush. -/
@[simp] lemma logData_flushes :
    (logData R m dt dh dtF p s).flushes = s.flushes := by
  cases dh <;> cases dtF <;>
    simp only [logData, readSensors, error] <;>
    split <;>
    simp [displayAverages, resetAverages, updateLCD] <;>
    split <;> rfl

/-- With valid (non-NaN) readings logData preserves the halted flag. -/
lemma logData_halted_valid (hv tv : ℚ) :
    (logData R m dt (some hv) (some tv) p s).halted = s.halted := by
  simp only [logData, readSensors]
  split <;> simp_all [displayAverages, resetAverages, updateLCD] <;>
    split <;> rfl

/-- With valid readings and a running process, logData appends exactly
one record: the time chunks followed by the sensor chunks. -/
lemma logData_logfile_valid (hv tv : ℚ) (hs : s.halted = false) :
    (logData R m dt (some hv) (some tv) p s).logfile =
      s.logfile ++ timeChunks m dt ++ sensorChunks R hv tv p := by
  simp only [logData, readSensors, hs]
  split <;> simp_all [displayAverages, resetAverages, updateLCD] <;>
    split <;> rfl

end FrameLemmas

/-- C5: the loop's elapsed-time computation `millis() - lastLogTime` (in
32-bit unsigned arithmetic, `sub32`) returns the true elapsed
milliseconds modulo `2^32`; consequently the `≥ LOG_INTERVAL` comparison
is exact as long as at most one wraparound occurred (true elapsed below
`2^32`). -/
theorem claim5_wraparound_elapsed (lastLogTime e : ℕ)
    (hlt : lastLogTime < U32MOD) :
    sub32 ((lastLogTime + e) % U32MOD) lastLogTime = e % U32MOD ∧
    (e < U32MOD →
      (LOG_INTERVAL ≤ sub32 ((lastLogTime + e) % U32MOD) lastLogTime ↔
        LOG_INTERVAL ≤ e)) := by
  have hmod : U32MOD = 4294967296 := by norm_num [U32MOD]
  constructor
  · simp only [sub32, hmod] at *
    omega
  · intro he
    simp only [sub32, hmod, LOG_INTERVAL] at *
    omega

/-- Witness for C5: one concrete wraparound, 1000 ms before the clock
overflow plus 3000 ms of true elapsed time, lands at clock value 2000 and
still measures 3000 elapsed. -/
theorem claim5_wraparound_elapsed_witness :
    sub32 ((4294966296 + 3000) % U32MOD) 4294966296 = 3000 % U32MOD ∧
    (LOG_INTERVAL ≤ sub32 ((4294966296 + 3000) % U32MOD) 4294966296 ↔
      LOG_INTERVAL ≤ 3000) := by
  have h := claim5_wraparound_elapsed 4294966296 3000 (by norm_num [U32MOD])
  exact ⟨h.1, h.2 (by norm_num [U32MOD])⟩

/-- C4: in a loop iteration of a running (non-halted) process with valid
sensor readings, if the 32-bit elapsed time since `lastLogTime` is at
least LOG_INTERVAL then the log cycle fires exactly once — precisely one
record is appended — and `lastLogTime` is advanced to the iteration's
clock value; if the elapsed time is below LOG_INTERVAL, no record is
appended and `lastLogTime` is unchanged. -/
theorem claim4_log_cycle_gating (R : Renderers) (inp : LoopInput)
    (s : ProgState) (hv tv : ℚ) (hhalt : s.halted = false)
    (hH : inp.dhtHumidity = some hv) (hT : inp.dhtTemperatureF = some tv) :
    (LOG_INTERVAL ≤ sub32 inp.now s.lastLogTime →
      (loopIter R inp s).lastLogTime = inp.now ∧
      (loopIter R inp s).logfile =
        s.logfile ++ timeChunks inp.now inp.dt ++
          sensorChunks R hv tv inp.mplPressure) ∧
    (sub32 inp.now s.lastLogTime < LOG_INTERVAL →
      (loopIter R inp s).lastLogTime = s.lastLogTime ∧
      (loopIter R inp s).logfile = s.logfile) := by
  constructor
  · intro hc
    have hiter : loopIter R inp s =
        (let s1 := logData R inp.now inp.dt inp.dhtHumidity inp.dhtTemperatureF
            inp.mplPressure { s with lastLogTime := inp.now }
         if s1.halted then s1
         else
           let s2 := if sub32 inp.now s1.syncTime ≥ SYNC_INTERVAL then
               { s1 with syncTime := inp.now, flushes := s1.flushes ++ [inp.now] }
             else s1
           if inp.buttonLow then toggleDisplayMode R s2 else s2) := by
      simp [loopIter, hhalt, hc]
    rw [hiter, hH, hT]
    have hh : (logData R inp.now inp.dt (some hv) (some tv) inp.mplPressure
        { s with lastLogTime := inp.now }).halted = false := by
      rw [logData_halted_valid]; exact hhalt
    rw [if_neg (by simp [hh])]
    have hlog := logData_logfile_valid R inp.now inp.dt inp.mplPressure
      { s with lastLogTime := inp.now } hv tv (by exact hhalt)
    split <;> split <;>
      simp_all [toggleDisplayMode]
  · intro hc
    have hiter : loopIter R inp s =
        (let s2 := if sub32 inp.now s.syncTime ≥ SYNC_INTERVAL then
             { s with syncTime := inp.now, flushes := s.flushes ++ [inp.now] }
           else s
         if inp.buttonLow then toggleDisplayMode R s2 else s2) := by
      simp [loopIter, hhalt, Nat.not_le.mpr hc]
    rw [hiter]
    split <;> split <;> simp_all [toggleDisplayMode]

/-- Witness for C4: from the initial state, an iteration at clock 2500
with valid readings fires the log cycle and advances `lastLogTime` to
2500. -/
theorem claim4_log_cycle_gating_witness :
    (loopIter renderProbe
        { now := 2500, dt := dt0, dhtHumidity := some 1,
          dhtTemperatureF := some 2, mplPressure := 3, buttonLow := false }
        initState).lastLogTime = 2500 := by
  have h := claim4_log_cycle_gating renderProbe
    { now := 2500, dt := dt0, dhtHumidity := some 1,
      dhtTemperatureF := some 2, mplPressure := 3, buttonLow := false }
    initState 1 2 rfl rfl rfl
  exact (h.1 (by decide)).1

/-- C1, counterexample to "no partial record is written": with a NaN
humidity reading the process does halt, but the log-file trace is not
empty — the timestamp prefix of the record was already appended before
`readSensors` ran, because `logData` prints the time fields before
reading the sensors. -/
theorem claim1_partial_record_counterexample :
    (logData renderProbe 4000 dt0 none (some 72.3) 101.3 initState).halted = true ∧
    (logData renderProbe 4000 dt0 none (some 72.3) 101.3 initState).logfile ≠ [] := by
  constructor
  · rfl
  · decide

/-- C1 as amended: when the humidity or temperature reading is NaN, the
process halts before the averaging sums, the readings count, or the
average-emission trace are touched, and before any sensor field or line
terminator is written — but the record's timestamp prefix has already
been appended to the log file, so a partial record is left behind. -/
theorem claim1_nan_halts_after_time_prefix (R : Renderers) (m : ℕ)
    (dt : DateTime) (dhtH dhtT : Option ℚ) (p : ℚ) (s : ProgState)
    (hnan : dhtH = none ∨ dhtT = none) :
    (logData R m dt dhtH dhtT p s).halted = true ∧
    (logData R m dt dhtH dhtT p s).totalHumidity = s.totalHumidity ∧
    (logData R m dt dhtH dhtT p s).totalTemperature = s.totalTemperature ∧
    (logData R m dt dhtH dhtT p s).totalPressure = s.totalPressure ∧
    (logData R m dt dhtH dhtT p s).readingsCount = s.readingsCount ∧
    (logData R m dt dhtH dhtT p s).avgEvents = s.avgEvents ∧
    (logData R m dt dhtH dhtT p s).logfile = s.logfile ++ timeChunks m dt := by
  rcases hnan with h | h <;> subst h
  · cases dhtT <;> simp [logData, readSensors, error]
  · cases dhtH <;> simp [logData, readSensors, error]

/-- Witness for C1's amended statement at a concrete NaN input. -/
theorem claim1_nan_halts_after_time_prefix_witness :
    (logData renderProbe 4000 dt0 (some 45.2) none 101.3 initState).halted = true ∧
    (logData renderProbe 4000 dt0 (some 45.2) none 101.3 initState).readingsCount = 0 := by
  have h := claim1_nan_halts_after_time_prefix renderProbe 4000 dt0
    (some 45.2) none 101.3 initState (Or.inr rfl)
  exact ⟨h.1, h.2.2.2.2.1.trans rfl⟩

/-- C7: in the spec's scenario (humidity 45.2, temperature 72.3 °F,
pressure 101.3 kPa, elapsed 4000 ms, unix stamp 1700000000, datetime
2023/11/14 10:00:00), the record appended to the log file is exactly the
line `4000, 1700000000, "2023/11/14 10:0:0", 45.2, 72.3, 101.3`; the
float fields are produced by the platform's default float rendering,
abstracted here as `R.file`. -/
theorem claim7_scenario_record (R : Renderers)
    (h1 : R.file 45.2 = "45.2") (h2 : R.file 72.3 = "72.3")
    (h3 : R.file 101.3 = "101.3") :
    String.join
      ((logData R 4000 dt0 (some 45.2) (some 72.3) 101.3 initState).logfile) =
    "4000, 1700000000, \"2023/11/14 10:0:0\", 45.2, 72.3, 101.3\n" := by
  rw [logData_logfile_valid R 4000 dt0 101.3 initState 45.2 72.3 rfl]
  show String.join ([] ++ timeChunks 4000 dt0 ++ sensorChunks R 45.2 72.3 101.3) = _
  rw [List.nil_append, timeChunks, sensorChunks, h1, h2, h3]
  rfl

/-- Witness for C7: the concrete renderer `renderProbe` produces exactly
the expected line. -/
theorem claim7_scenario_record_witness :
    String.join
      ((logData renderProbe 4000 dt0 (some 45.2) (some 72.3) 101.3
          initState).logfile) =
    "4000, 1700000000, \"2023/11/14 10:0:0\", 45.2, 72.3, 101.3\n" :=
  claim7_scenario_record renderProbe (by norm_num [renderProbe])
    (by norm_num [renderProbe]) (by norm_num [renderProbe])

/-- If every candidate in the fuel window exists, the createLogFile loop
falls through to the fatal path. -/
lemma createLogFileGo_all_exist (fe ov : String → Bool) (fuel : ℕ) :
    ∀ i, (∀ j, i ≤ j → j < i + fuel → fe (candidateName j) = true) →
      createLogFileGo fe ov fuel i = .fatal "Could not create file" := by
  induction fuel with
  | zero => intro i _; rfl
  | succ n ih =>
    intro i h
    rw [createLogFileGo, if_pos (h i le_rfl (by omega))]
    exact ih (i + 1) fun j hj1 hj2 => h j (by omega) (by omega)

/-- The createLogFile loop stops at the first non-existing candidate and
returns created, carrying whatever handle validity the open gave. -/
lemma createLogFileGo_first_free (fe ov : String → Bool) (fuel : ℕ) :
    ∀ i k, i ≤ k → k < i + fuel → fe (candidateName k) = false →
      (∀ j, i ≤ j → j < k → fe (candidateName j) = true) →
      createLogFileGo fe ov fuel i =
        .created (candidateName k) (ov (candidateName k)) := by
  induction fuel with
  | zero => intro i k h1 h2 _ _; omega
  | succ n ih =>
    intro i k h1 h2 hk hbelow
    rw [createLogFileGo]
    rcases h1.lt_or_eq with h | h
    · rw [if_pos (hbelow i le_rfl h)]
      exact ih (i + 1) k (by omega) (by omega) hk fun j hj1 hj2 => hbelow j (by omega) hj2
    · subst h
      rw [if_neg (by simp [hk])]

/-- A fatal result from the createLogFile loop means every candidate in
the fuel window existed. -/
lemma createLogFileGo_fatal_all_exist (fe ov : String → Bool) (fuel : ℕ) :
    ∀ i msg, createLogFileGo fe ov fuel i = .fatal msg →
      ∀ j, i ≤ j → j < i + fuel → fe (candidateName j) = true := by
  induction fuel with
  | zero => intro i msg _ j h1 h2; omega
  | succ n ih =>
    intro i msg heq j h1 h2
    rw [createLogFileGo] at heq
    by_cases hi : fe (candidateName i) = true
    · rw [if_pos hi] at heq
      rcases h1.lt_or_eq with h | h
      · exact ih (i + 1) msg heq j h (by omega)
      · subst h; exact hi
    · rw [if_neg hi] at heq
      exact CreateResult.noConfusion heq

/-- C3: createLogFile probes LOGGER00.CSV .. LOGGER99.CSV in ascending
index order and creates exactly the first candidate that does not exist
(the name of index `k` whenever candidates 0..k-1 exist and candidate `k`
does not); when all 100 candidates exist it takes the fatal error path. -/
theorem claim3_first_free_name (fe ov : String → Bool) (k : ℕ) :
    ((∀ i, i < 100 → fe (candidateName i) = true) →
      createLogFile fe ov = .fatal "Could not create file") ∧
    (k < 100 → fe (candidateName k) = false →
      (∀ j, j < k → fe (candidateName j) = true) →
      createLogFile fe ov = .created (candidateName k) (ov (candidateName k))) := by
  constructor
  · intro h
    exact createLogFileGo_all_exist fe ov 100 0 fun j _ hj => h j (by omega)
  · intro hk hfree hbelow
    exact createLogFileGo_first_free fe ov 100 0 k (Nat.zero_le k) (by omega) hfree
      fun j _ hj => hbelow j hj

/-- Witness for C3: with LOGGER00.CSV..LOGGER04.CSV existing, the created
file is LOGGER05.CSV (the spec's example). -/
theorem claim3_first_free_name_witness :
    createLogFile existsFirstFive (fun _ => true) = .created "LOGGER05.CSV" true := by
  have h := (claim3_first_free_name existsFirstFive (fun _ => true) 5).2
    (by norm_num) (by decide) (fun j hj => by interval_cases j <;> decide)
  rw [h]; decide

/-- C9: createLogFile halts fatally only when all 100 candidates exist —
a fatal result implies every candidate existed; and when a candidate is
free but SD.open hands back an invalid handle (`openValid` constantly
false), the function still returns normally with a created result, the
invalid handle being carried on unchecked. -/
theorem claim9_open_failure_unchecked (fe : String → Bool) (k : ℕ) (msg : String) :
    (createLogFile fe (fun _ => false) = .fatal msg →
      ∀ i, i < 100 → fe (candidateName i) = true) ∧
    (k < 100 → fe (candidateName k) = false →
      (∀ j, j < k → fe (candidateName j) = true) →
      createLogFile fe (fun _ => false) = .created (candidateName k) false) := by
  constructor
  · intro h i hi
    exact createLogFileGo_fatal_all_exist fe (fun _ => false) 100 0 msg h i
      (Nat.zero_le i) (by omega)
  · intro hk hfree hbelow
    exact createLogFileGo_first_free fe (fun _ => false) 100 0 k (Nat.zero_le k)
      (by omega) hfree fun j _ hj => hbelow j hj

/-- Witness for C9: no file exists, the open yields an invalid handle,
and createLogFile nevertheless returns a created LOGGER00.CSV result. -/
theorem claim9_open_failure_unchecked_witness :
    createLogFile (fun _ => false) (fun _ => false) = .created "LOGGER00.CSV" false := by
  have h := (claim9_open_failure_unchecked (fun _ => false) 0 "").2
    (by norm_num) rfl (fun j hj => by omega)
  rw [h]; decide

/-- C10: toggleDisplayMode leaves the sensor caches, the averaging state,
the log file, the flush trace, the average-emission trace, the halted
flag, and both scheduler timestamps unchanged; it advances only the
display mode — which stays within {0,1,2} — and appends to the display
output a single-metric view rendered from the cached values of the most
recent log cycle (the function takes no sensor inputs, so no fresh
reading is involved). -/
theorem claim10_toggle_frame (R : Renderers) (s : ProgState)
    (hmode : s.displayMode = 0 ∨ s.displayMode = 1 ∨ s.displayMode = 2) :
    (toggleDisplayMode R s).humidity = s.humidity ∧
    (toggleDisplayMode R s).temperatureF = s.temperatureF ∧
    (toggleDisplayMode R s).pressureKPA = s.pressureKPA ∧
    (toggleDisplayMode R s).totalHumidity = s.totalHumidity ∧
    (toggleDisplayMode R s).totalTemperature = s.totalTemperature ∧
    (toggleDisplayMode R s).totalPressure = s.totalPressure ∧
    (toggleDisplayMode R s).readingsCount = s.readingsCount ∧
    (toggleDisplayMode R s).lastLogTime = s.lastLogTime ∧
    (toggleDisplayMode R s).syncTime = s.syncTime ∧
    (toggleDisplayMode R s).logfile = s.logfile ∧
    (toggleDisplayMode R s).flushes = s.flushes ∧
    (toggleDisplayMode R s).avgEvents = s.avgEvents ∧
    (toggleDisplayMode R s).halted = s.halted ∧
    (toggleDisplayMode R s).displayMode = (s.displayMode + 1).tmod 3 ∧
    ((toggleDisplayMode R s).displayMode = 0 ∨
      (toggleDisplayMode R s).displayMode = 1 ∨
      (toggleDisplayMode R s).displayMode = 2) ∧
    (s.displayMode = 2 →
      (toggleDisplayMode R s).lcdOut =
        s.lcdOut ++ ["Humidity: ", R.lcd1 s.humidity ++ "%"]) ∧
    (s.displayMode = 0 →
      (toggleDisplayMode R s).lcdOut =
        s.lcdOut ++ ["Temp: ", R.lcd1 s.temperatureF ++ "F"]) ∧
    (s.displayMode = 1 →
      (toggleDisplayMode R s).lcdOut =
        s.lcdOut ++ ["Pressure: ", R.lcd1 s.pressureKPA ++ " kPa"]) := by
  refine ⟨rfl, rfl, rfl, rfl, rfl, rfl, rfl, rfl, rfl, rfl, rfl, rfl, rfl, rfl,
    ?_, ?_, ?_, ?_⟩
  · rcases hmode with h | h | h <;> simp only [toggleDisplayMode, h] <;> decide
  · intro h
    have ht : Int.tmod 3 3 = 0 := by decide
    simp [toggleDisplayMode, h, ht]
  · intro h
    have ht : Int.tmod 1 3 = 1 := by decide
    simp [toggleDisplayMode, h, ht]
  · intro h
    have ht : Int.tmod 2 3 = 2 := by decide
    simp [toggleDisplayMode, h, ht]

/-- Witness for C10: toggling from the initial state (mode 0) changes
only the display, lands in mode 1, and keeps the averaging count at 0. -/
theorem claim10_toggle_frame_witness :
    (toggleDisplayMode renderProbe initState).readingsCount = 0 ∧
    ((toggleDisplayMode renderProbe initState).displayMode = 0 ∨
      (toggleDisplayMode renderProbe initState).displayMode = 1 ∨
      (toggleDisplayMode renderProbe initState).displayMode = 2) := by
  have h := claim10_toggle_frame renderProbe initState (Or.inl rfl)
  exact ⟨h.2.2.2.2.2.2.1.trans rfl, h.2.2.2.2.2.2.2.2.2.2.2.2.2.2.1⟩

/-- C2: starting from a freshly reset accumulator, ten consecutive valid
samples produce exactly one average emission, whose three fields are the
arithmetic means of the ten humidity, temperature, and pressure values,
and immediately afterwards all three sums are 0 and the readings count is
0. -/
theorem claim2_window_average (R : Renderers) (ms : Fin 10 → ℕ)
    (dts : Fin 10 → DateTime) (hs ts ps : Fin 10 → ℚ) (s : ProgState)
    (hcnt : s.readingsCount = 0) (hH : s.totalHumidity = 0)
    (hT : s.totalTemperature = 0) (hP : s.totalPressure = 0)
    (hhalt : s.halted = false) :
    (tenLogCycles R ms dts hs ts ps s).avgEvents =
      s.avgEvents ++
        [(10,
          (hs 0 + hs 1 + hs 2 + hs 3 + hs 4 + hs 5 + hs 6 + hs 7 + hs 8 + hs 9) / 10,
          (ts 0 + ts 1 + ts 2 + ts 3 + ts 4 + ts 5 + ts 6 + ts 7 + ts 8 + ts 9) / 10,
          (ps 0 + ps 1 + ps 2 + ps 3 + ps 4 + ps 5 + ps 6 + ps 7 + ps 8 + ps 9) / 10)] ∧
    (tenLogCycles R ms dts hs ts ps s).totalHumidity = 0 ∧
    (tenLogCycles R ms dts hs ts ps s).totalTemperature = 0 ∧
    (tenLogCycles R ms dts hs ts ps s).totalPressure = 0 ∧
    (tenLogCycles R ms dts hs ts ps s).readingsCount = 0 := by
  refine ⟨?_, ?_, ?_, ?_, ?_⟩ <;>
    simp [tenLogCycles, oneLogCycle, logData, readSensors, displayAverages,
      resetAverages, updateLCD, hhalt, hcnt, hH, hT, hP]

/-- Witness for C2: ten constant samples (1, 2, 3) from the initial state
emit the average (1, 2, 3) and leave the accumulator reset. -/
theorem claim2_window_average_witness :
    (tenLogCycles renderProbe (fun _ => 0) (fun _ => dt0) (fun _ => 1)
        (fun _ => 2) (fun _ => 3) initState).avgEvents =
      [(10, 1, 2, 3)] ∧
    (tenLogCycles renderProbe (fun _ => 0) (fun _ => dt0) (fun _ => 1)
        (fun _ => 2) (fun _ => 3) initState).readingsCount = 0 := by
  have h := claim2_window_average renderProbe (fun _ => 0) (fun _ => dt0)
    (fun _ => 1) (fun _ => 2) (fun _ => 3) initState rfl rfl rfl rfl rfl
  refine ⟨h.1.trans ?_, h.2.2.2.2⟩
  norm_num [initState]

/-- logData preserves the averaging invariant, whatever the readings. -/
lemma accInv_logData (R : Renderers) (m : ℕ) (dt : DateTime)
    (dh dtF : Option ℚ) (p : ℚ) (s : ProgState) (h : AccInv s) :
    AccInv (logData R m dt dh dtF p s) := by
  obtain ⟨h1, h2, h3⟩ := h
  match dh, dtF with
  | none, none =>
    simp only [logData, readSensors, error]
    exact ⟨h1, h2, h3⟩
  | none, some _ =>
    simp only [logData, readSensors, error]
    exact ⟨h1, h2, h3⟩
  | some _, none =>
    simp only [logData, readSensors, error]
    exact ⟨h1, h2, h3⟩
  | some hv, some tv =>
    by_cases hb : s.halted
    · refine ⟨?_, ?_, ?_⟩
      · simpa [logData, readSensors, hb] using h1
      · simpa [logData, readSensors, hb] using h2
      · simpa [logData, readSensors, hb] using h3
    · by_cases hc : s.readingsCount + 1 ≥ 10
      · have hc10 : s.readingsCount + 1 = 10 := by omega
        refine ⟨?_, ?_, ?_⟩
        · simp [logData, readSensors, hb, hc, displayAverages, resetAverages,
            updateLCD]
        · simp [logData, readSensors, hb, hc, displayAverages, resetAverages,
            updateLCD]
        · simp only [logData, readSensors, hb, hc, displayAverages,
            resetAverages, updateLCD]
          simp [hc]
          rintro a a1 a2 b (hm | ⟨ha, -, -, -⟩)
          · exact h3 _ hm
          · omega
      · refine ⟨?_, ?_, ?_⟩
        · simp [logData, readSensors, hb, hc, updateLCD] <;> omega
        · simp [logData, readSensors, hb, hc, updateLCD] <;> omega
        · simpa [logData, readSensors, hb, hc, updateLCD] using h3

/-- One loop iteration preserves the averaging invariant. -/
lemma accInv_loopIter (R : Renderers) (inp : LoopInput) (s : ProgState)
    (h : AccInv s) : AccInv (loopIter R inp s) := by
  simp only [loopIter]
  split
  · exact h
  · generalize hgen : (if sub32 inp.now s.lastLogTime ≥ LOG_INTERVAL then
        logData R inp.now inp.dt inp.dhtHumidity inp.dhtTemperatureF
          inp.mplPressure { s with lastLogTime := inp.now }
      else s) = s1
    have hlog : AccInv s1 := by
      rw [← hgen]
      split
      · exact accInv_logData _ _ _ _ _ _ _ ⟨h.1, h.2.1, h.2.2⟩
      · exact h
    split
    · exact hlog
    · split <;> split <;> exact ⟨hlog.1, hlog.2.1, hlog.2.2⟩

/-- A whole run from an invariant state stays in the invariant. -/
lemma accInv_runLoop (R : Renderers) (inps : List LoopInput) (s : ProgState)
    (h : AccInv s) : AccInv (runLoop R inps s) := by
  induction inps generalizing s with
  | nil => exact h
  | cons i t ih => exact ih _ (accInv_loopIter R i s h)

/-- C8: in every run of the loop from the initial state, every invocation
of displayAverages (every recorded average emission) happens with a
readings count of exactly 10 — in particular the divisor of the three
sum-by-count divisions is never zero. -/
theorem claim8_emit_never_zero_count (R : Renderers) (inps : List LoopInput) :
    ∀ e ∈ (runLoop R inps initState).avgEvents, e.1 = 10 :=
  (accInv_runLoop R inps initState
    ⟨by norm_num [initState], by norm_num [initState], by simp [initState]⟩).2.2

/-- Witness for C8: a concrete run of ten firing iterations records one
emission, and the claim applied to it gives its divisor 10. -/
theorem claim8_emit_never_zero_count_witness :
    ((10 : ℤ), (1 : ℚ), (2 : ℚ), (3 : ℚ)) ∈
      (runLoop renderProbe tenFiringInputs initState).avgEvents ∧
    ((10 : ℤ), (1 : ℚ), (2 : ℚ), (3 : ℚ)).1 = 10 := by
  have hev : (runLoop renderProbe tenFiringInputs initState).avgEvents =
      [((10 : ℤ), (1 : ℚ), (2 : ℚ), (3 : ℚ))] := by
    simp [runLoop, tenFiringInputs, loopIter, logData, readSensors,
      displayAverages, resetAverages, updateLCD, toggleDisplayMode, sub32,
      U32MOD, LOG_INTERVAL, SYNC_INTERVAL, initState]
    norm_num
  have hmem : ((10 : ℤ), (1 : ℚ), (2 : ℚ), (3 : ℚ)) ∈
      (runLoop renderProbe tenFiringInputs initState).avgEvents := by
    rw [hev]; exact List.mem_singleton.mpr rfl
  exact ⟨hmem, claim8_emit_never_zero_count renderProbe tenFiringInputs _ hmem⟩

/-- Unsigned 32-bit subtraction coincides with plain subtraction when no
wraparound happened. -/
lemma sub32_eq_of_le (a b : ℕ) (h1 : b ≤ a) (h2 : a < U32MOD) :
    sub32 a b = a - b := by
  have hmod : U32MOD = 4294967296 := by norm_num [U32MOD]
  simp only [sub32, hmod] at *
  omega

/-- How one iteration of a running loop with valid readings and the
button up treats the sync timer: flush exactly when the 32-bit elapsed
time since the last sync reached SYNC_INTERVAL, in which case the sync
timestamp becomes the current clock. -/
lemma loopIter_sync_spec (R : Renderers) (inp : LoopInput) (s : ProgState)
    (hv tv : ℚ) (hH : inp.dhtHumidity = some hv)
    (hT : inp.dhtTemperatureF = some tv) (hb : inp.buttonLow = false)
    (hhalt : s.halted = false) :
    (loopIter R inp s).syncTime =
      (if sub32 inp.now s.syncTime ≥ SYNC_INTERVAL then inp.now else s.syncTime) ∧
    (loopIter R inp s).flushes =
      (if sub32 inp.now s.syncTime ≥ SYNC_INTERVAL then s.flushes ++ [inp.now]
       else s.flushes) ∧
    (loopIter R inp s).halted = false := by
  have h0 : loopIter R inp s =
      (let s1 := if sub32 inp.now s.lastLogTime ≥ LOG_INTERVAL then
          logData R inp.now inp.dt (some hv) (some tv) inp.mplPressure
            { s with lastLogTime := inp.now }
        else s
       if s1.halted then s1
       else if sub32 inp.now s1.syncTime ≥ SYNC_INTERVAL then
         { s1 with syncTime := inp.now, flushes := s1.flushes ++ [inp.now] }
       else s1) := by
    simp [loopIter, hhalt, hb, hH, hT]
  rw [h0]
  generalize hgen : (if sub32 inp.now s.lastLogTime ≥ LOG_INTERVAL then
      logData R inp.now inp.dt (some hv) (some tv) inp.mplPressure
        { s with lastLogTime := inp.now }
    else s) = s1
  have hsync : s1.syncTime = s.syncTime := by rw [← hgen]; split <;> simp
  have hfl : s1.flushes = s.flushes := by rw [← hgen]; split <;> simp
  have hha : s1.halted = false := by
    rw [← hgen]
    split
    · rw [logData_halted_valid]; exact hhalt
    · exact hhalt
  dsimp only
  rw [hha]
  simp only [Bool.false_eq_true, if_false]
  rw [hsync]
  split
  · exact ⟨rfl, by simp [hfl], rfl⟩
  · exact ⟨hsync, hfl, hha⟩

/-- Characterization of the sync timer and flush trace over a run whose
iterations are spaced 2000 ms apart from clock 0: after `n` iterations
the flushes happened exactly at 20000, 40000, ..., `20000 * ((n-1)/10)`,
and the sync timestamp is the last of them (or 0). -/
lemma runLoop_spaced_sync (R : Renderers) (dt : DateTime) (h t p : ℚ) :
    ∀ n : ℕ, 2000 * n < U32MOD →
      (runLoop R (spacedInputs dt h t p n) initState).syncTime =
        20000 * ((n - 1) / 10) ∧
      (runLoop R (spacedInputs dt h t p n) initState).flushes =
        (List.range ((n - 1) / 10)).map (fun j => 20000 * (j + 1)) ∧
      (runLoop R (spacedInputs dt h t p n) initState).halted = false := by
  intro n
  induction n with
  | zero => intro _; exact ⟨rfl, rfl, rfl⟩
  | succ k ih =>
    intro hbound
    have hmod : U32MOD = 4294967296 := by norm_num [U32MOD]
    have hbk : 2000 * k < U32MOD :=
      lt_of_le_of_lt (Nat.mul_le_mul_left 2000 (Nat.le_succ k)) hbound
    obtain ⟨ihs, ihf, ihh⟩ := ih hbk
    have hstep : spacedInputs dt h t p (k + 1) = spacedInputs dt h t p k ++
        [⟨2000 * k, dt, some h, some t, p, false⟩] := by
      simp [spacedInputs, List.range_succ]
    rw [hstep]
    have hrun : runLoop R (spacedInputs dt h t p k ++
        [(⟨2000 * k, dt, some h, some t, p, false⟩ : LoopInput)]) initState =
        loopIter R ⟨2000 * k, dt, some h, some t, p, false⟩
          (runLoop R (spacedInputs dt h t p k) initState) := by
      simp [runLoop, List.foldl_append]
    rw [hrun]
    obtain ⟨hs1, hf1, hh1⟩ := loopIter_sync_spec R
      ⟨2000 * k, dt, some h, some t, p, false⟩
      (runLoop R (spacedInputs dt h t p k) initState) h t rfl rfl rfl ihh
    rw [hs1, hf1, ihs, ihf]
    dsimp only
    have hle : 20000 * ((k - 1) / 10) ≤ 2000 * k := by omega
    rw [sub32_eq_of_le _ _ hle hbk]
    by_cases hc : 2000 * k - 20000 * ((k - 1) / 10) ≥ SYNC_INTERVAL
    · rw [if_pos hc, if_pos hc]
      simp only [SYNC_INTERVAL] at hc
      have h10 : k / 10 = (k - 1) / 10 + 1 := by omega
      refine ⟨?_, ?_, hh1⟩
      · simp only [Nat.add_sub_cancel, h10]
        omega
      · simp only [Nat.add_sub_cancel, h10, List.range_succ, List.map_append,
          List.map_cons, List.map_nil, List.append_cancel_left_eq,
          List.cons.injEq, and_true]
        omega
    · rw [if_neg hc, if_neg hc]
      simp only [SYNC_INTERVAL] at hc
      have h10 : k / 10 = (k - 1) / 10 := by omega
      refine ⟨?_, ?_, hh1⟩
      · simp only [Nat.add_sub_cancel, h10]
      · simp only [Nat.add_sub_cancel, h10]

/-- Consecutive members of the flush-time list are exactly 20000 ms
apart. -/
lemma chain_flush_gap (m : ℕ) :
    List.Chain' (fun a b => a + 20000 = b)
      ((List.range m).map fun j => 20000 * (j + 1)) := by
  induction m with
  | zero => simp
  | succ k ih =>
    rw [List.range_succ, List.map_append]
    refine List.Chain'.append ih (by simp) ?_
    intro x hx y hy
    simp only [List.map_cons, List.map_nil, List.head?_cons, Option.mem_def,
      Option.some.injEq] at hy
    cases k with
    | zero => simp at hx
    | succ j =>
      rw [List.range_succ, List.map_append] at hx
      simp only [List.map_cons, List.map_nil] at hx
      rw [List.getLast?_concat] at hx
      simp only [Option.mem_def, Option.some.injEq] at hx
      subst hx
      subst hy
      ring

/-- C6: over a run of loop iterations spaced 2000 ms apart from clock 0,
the flushes happen exactly at 20000, 40000, ... — consecutive flushes are
exactly one SYNC_INTERVAL apart, so flush() is invoked no more often than
once per 20000 ms window and once for every 20000 ms boundary crossed
within the run — and whenever an iteration of a running process flushes,
it sets the sync timestamp to the current clock value. -/
theorem claim6_flush_cadence (R : Renderers) (dt : DateTime) (h t p : ℚ)
    (n : ℕ) (hn : 2000 * n < U32MOD) :
    (runLoop R (spacedInputs dt h t p n) initState).flushes =
      (List.range ((n - 1) / 10)).map (fun j => 20000 * (j + 1)) ∧
    (runLoop R (spacedInputs dt h t p n) initState).syncTime =
      20000 * ((n - 1) / 10) ∧
    List.Chain' (fun a b => a + 20000 = b)
      (runLoop R (spacedInputs dt h t p n) initState).flushes ∧
    (∀ (inp : LoopInput) (s2 : ProgState), s2.halted = false →
      (loopIter R inp s2).flushes ≠ s2.flushes →
      (loopIter R inp s2).syncTime = inp.now) := by
  obtain ⟨hs, hf, _⟩ := runLoop_spaced_sync R dt h t p n hn
  refine ⟨hf, hs, ?_, ?_⟩
  · rw [hf]; exact chain_flush_gap _
  · intro inp s2 hs2 hne
    revert hne
    simp only [loopIter]
    rw [if_neg (by simp [hs2])]
    generalize hgen : (if sub32 inp.now s2.lastLogTime ≥ LOG_INTERVAL then
        logData R inp.now inp.dt inp.dhtHumidity inp.dhtTemperatureF
          inp.mplPressure { s2 with lastLogTime := inp.now }
      else s2) = s1
    have hfl : s1.flushes = s2.flushes := by rw [← hgen]; split <;> simp
    split
    · intro hne; exact absurd hfl hne
    · split <;> split <;> intro hne <;>
        first
        | rfl
        | exact absurd hfl hne

/-- Witness for C6: a run of 21 iterations spaced 2000 ms apart flushes
exactly twice, at 20000 and 40000. -/
theorem claim6_flush_cadence_witness :
    (runLoop renderProbe (spacedInputs dt0 1 2 3 21) initState).flushes =
      [20000, 40000] := by
  have h := claim6_flush_cadence renderProbe dt0 1 2 3 21 (by norm_num [U32MOD])
  rw [h.1]
  rfl

end WeatherData
